import Mathlib

/-!
Verification development for the LoanCalculator repository.

The embedding covers the backend analysis pipeline:
  * `backend/src/models/*` (Institution, LoanProduct, InterestRate schemas),
  * `backend/src/services/rate-tracker/index.js` (`getLatestRate`),
  * `backend/src/services/ai-analysis/index.js` (`analyzeLoanOptions`,
    `getEligibleProducts`, `calculateMetrics`, `rankProducts`,
    `generateRecommendations`, `generateInsights`, `getEducationalContent`,
    the helper scorers, and `suggestAlternatives`).

Conventions of the embedding:
  * JS numbers are modelled as exact rationals (`ℚ`); months and ids as `ℕ`;
    credit scores as `ℤ`.  `x / 0 = 0` in `ℚ` where JS produces `NaN`.
  * Mongoose documents are records holding the schema fields the pipeline
    reads.  Schema fields that no code path of the analysis pipeline ever
    reads (description, baseRate, variableRate, requirements, processingTime,
    logoUrl, contact info, timestamps) are omitted.  Optional schema fields
    (no `default`, no `required`) are `Option`s.
  * MongoDB comparison operators (`$lte`, `$gte`, `$lt`) use type bracketing:
    a document whose field is missing is NOT matched by a numeric range
    query.  An `Option` field therefore matches only through `some`.
  * `find` without a sort is modelled as a scan of the catalog list in
    order; `findOne` + `sort({date:-1})` picks a maximal-date match, the
    earliest listed one on ties.
  * `Math.random()` draws are modelled by an oracle `rng : ℕ → ℚ` indexed by
    the position of the product being evaluated.
  * `Array.prototype.sort` with a numeric comparator is modelled by a stable
    insertion sort with respect to the comparator's ordering (ES2019 sort is
    stable; any stable sort is extensionally the same function).
  * JS number-to-string conversion is modelled by `toString` on `ℚ` and a
    two-decimal formatter for `toFixed(2)`; the narrative strings play no
    role in any claim.
  * JS `!==` on two elements drawn from the same materialised array is
    modelled by structural inequality (the elements are distinct objects
    exactly when they are distinct list elements, up to duplicated records).
-/

namespace LoanCalculator

/-- Character-list test: does `s` start with `pat`? (helper for `includes`). -/
def charsStartWith : List Char → List Char → Bool
  | _, [] => true
  | [], _ :: _ => false
  | a :: as, b :: bs => a == b && charsStartWith as bs

/-- Character-list test: does `s` contain `pat` as a contiguous run?
(helper for JS `String.prototype.includes`). -/
def charsContain : List Char → List Char → Bool
  | [], pat => pat.isEmpty
  | a :: as, pat => charsStartWith (a :: as) pat || charsContain as pat

/-- JS `s.includes(pat)`. -/
def strContains (s pat : String) : Bool :=
  charsContain s.toList pat.toList

/-- JS `x.toFixed(2)` for the nonnegative amounts the pipeline prints:
round half-up to an integer number of cents and print with two decimals. -/
def toFixed2 (q : ℚ) : String :=
  let n : ℤ := (q * 100 + 1 / 2).floor
  toString (n / 100) ++ "." ++ (if (n % 100).natAbs < 10 then "0" else "") ++
    toString (n % 100).natAbs

/-- Head of a list with an explicit fallback (the fallback is supplied only
where the source guarantees the list nonempty). -/
def headOr (l : List α) (dflt : α) : α :=
  match l with
  | [] => dflt
  | x :: _ => x

/-- Insertion step of a stable sort: `before x y` says `x` may be placed
before `y`. -/
def insertBy (before : α → α → Bool) (x : α) : List α → List α
  | [] => [x]
  | y :: ys => if before x y then x :: y :: ys else y :: insertBy before x ys

/-- Stable sort modelling `Array.prototype.sort` with a numeric comparator:
`before x y` must hold exactly when the comparator does not order `y`
strictly before `x`. -/
def stableSortBy (before : α → α → Bool) (l : List α) : List α :=
  l.foldr (insertBy before) []

/-- Insertion-order deduplication, as a JS `Set` built by repeated `add`. -/
def dedupKeepFirst (l : List String) : List String :=
  l.foldl (fun acc s => if s ∈ acc then acc else acc ++ [s]) []

/-- Institution document (`backend/src/models/Institution.js`): the pipeline
reads only the display name of the populated institution. -/
structure Institution where
  name : String
deriving DecidableEq

/-- LoanProduct document (`backend/src/models/LoanProduct.js`).  `minAmount`
defaults to 0 and `minTerm` to 1; `maxAmount`, `maxTerm` and
`minCreditScore` have neither default nor `required`, hence `Option`. -/
structure LoanProduct where
  id : ℕ
  institution : Institution
  name : String
  type : String
  minAmount : ℚ
  maxAmount : Option ℚ
  minTerm : ℕ
  maxTerm : Option ℕ
  minCreditScore : Option ℤ
  perks : List String
  active : Bool
deriving DecidableEq

/-- Truthiness of `product.fees` in `calculateAPR`: the LoanProduct schema
declares no `fees` path, so on any document of this schema the read yields
`undefined`, which is falsy. -/
def LoanProduct.fees (_ : LoanProduct) : Bool := false

/-- Credit-score band of a rate observation
(`creditScoreRange` of `backend/src/models/InterestRate.js`). -/
structure CreditScoreRange where
  min : ℤ
  max : ℤ
deriving DecidableEq

/-- InterestRate document (`backend/src/models/InterestRate.js`); dates are
epoch instants ordered as naturals.  `creditScoreRange` is always present on
ingested rates (`processRates` defaults it to `{min:0, max:850}`). -/
structure InterestRate where
  loanProduct : ℕ
  date : ℕ
  rate : ℚ
  termLength : ℕ
  creditScoreRange : CreditScoreRange
deriving DecidableEq

/-- The five boolean preference flags read by `rankProducts`. -/
structure Preferences where
  prioritizeRate : Bool
  prioritizePayment : Bool
  prioritizeService : Bool
  prioritizeFlexibility : Bool
  prioritizeApproval : Bool
deriving DecidableEq

/-- One entry of the list built by `calculateMetrics`. -/
structure AnalyzedProduct where
  product : LoanProduct
  interestRate : ℚ
  monthlyPayment : ℚ
  totalPayment : ℚ
  totalInterest : ℚ
  apr : ℚ
  flexibility : ℚ
  customerService : ℚ
  approvalLikelihood : ℚ
deriving DecidableEq

/-- The per-metric scores object built inside `rankProducts`. -/
structure Scores where
  interestRate : ℚ
  monthlyPayment : ℚ
  customerService : ℚ
  flexibility : ℚ
  approvalLikelihood : ℚ
deriving DecidableEq

/-- The weight set derived in `rankProducts` (same five keys as `Scores`). -/
structure Weights where
  interestRate : ℚ
  monthlyPayment : ℚ
  customerService : ℚ
  flexibility : ℚ
  approvalLikelihood : ℚ
deriving DecidableEq

/-- Spread `{...product, scores, totalScore}` produced by `rankProducts`. -/
structure ScoredProduct extends AnalyzedProduct where
  scores : Scores
  totalScore : ℚ
deriving DecidableEq

/-- Later-of step of a date-descending `findOne`: keep the strictly newer
observation, the incumbent on ties. -/
def laterOf (best x : InterestRate) : InterestRate :=
  if best.date < x.date then x else best

/-- Maximal-date element of a list of observations (earliest listed one on
ties), `none` on the empty list. -/
def latestObs : List InterestRate → Option InterestRate
  | [] => none
  | o :: os => some (os.foldl laterOf o)

/-- RateTrackerService.getLatestRate (`backend/src/services/rate-tracker/index.js`,
lines 124-130): `findOne` over the rates of `loanProductId` whose
credit-score range contains `creditScore`, sorted by date descending.  The
JS parameter `creditScore` defaults to 720 when the caller omits it. -/
def getLatestRate (db : List InterestRate) (loanProductId : ℕ) (creditScore : ℤ) :
    Option InterestRate :=
  latestObs (db.filter (fun o =>
    o.loanProduct == loanProductId &&
    decide (o.creditScoreRange.min ≤ creditScore) &&
    decide (creditScore ≤ o.creditScoreRange.max)))

/-- `Number.MAX_SAFE_INTEGER`. -/
def maxSafeInteger : ℕ := 2 ^ 53 - 1

/-- Mongo clause `maxAmount: { $gte: amount || Number.MAX_SAFE_INTEGER }`:
`amount || MAX_SAFE_INTEGER` falls back when the requested amount is falsy
(0); a document with no `maxAmount` field is not matched by `$gte`. -/
def maxAmountClause (amount : ℚ) (p : LoanProduct) : Bool :=
  match p.maxAmount with
  | some m => decide ((if amount = 0 then ((maxSafeInteger : ℕ) : ℚ) else amount) ≤ m)
  | none => false

/-- Mongo clause `maxTerm: { $gte: term || Number.MAX_SAFE_INTEGER }`. -/
def maxTermClause (term : ℕ) (p : LoanProduct) : Bool :=
  match p.maxTerm with
  | some m => decide ((if term = 0 then maxSafeInteger else term) ≤ m)
  | none => false

/-- Mongo clause `minCreditScore: { $lte: creditScore }` (a document with no
`minCreditScore` field is not matched). -/
def minCreditClause (creditScore : ℤ) (p : LoanProduct) : Bool :=
  match p.minCreditScore with
  | some m => decide (m ≤ creditScore)
  | none => false

/-- The conjunction of clauses of the `LoanProduct.find` query in
`getEligibleProducts` (`ai-analysis/index.js`, lines 63-75). -/
def matchesEligibility (loanType : String) (amount : ℚ) (term : ℕ) (creditScore : ℤ)
    (p : LoanProduct) : Bool :=
  p.type == loanType &&
  decide (p.minAmount ≤ amount) &&
  maxAmountClause amount p &&
  decide (p.minTerm ≤ term) &&
  maxTermClause term p &&
  minCreditClause creditScore p &&
  p.active

/-- AIAnalysisService.getEligibleProducts: the catalog scan of the `find`
query (institutions are already populated on the product records). -/
def getEligibleProducts (catalog : List LoanProduct) (loanType : String) (amount : ℚ)
    (term : ℕ) (creditScore : ℤ) : List LoanProduct :=
  catalog.filter (matchesEligibility loanType amount term creditScore)

/-- Amortization formula as written inline in `calculateMetrics` (and
duplicated in the frontend calculator/comparison components):
`monthlyRate = R/100/12`, `payment = P*r*(1+r)^N / ((1+r)^N - 1)`. -/
def monthlyPaymentOf (amount annualRate : ℚ) (term : ℕ) : ℚ :=
  amount * (annualRate / 100 / 12) * (1 + annualRate / 100 / 12) ^ term /
    ((1 + annualRate / 100 / 12) ^ term - 1)

/-- AIAnalysisService.calculateAPR: the base rate plus 0.5 when the product
declares fees. -/
def calculateAPR (interestRate : ℚ) (product : LoanProduct) : ℚ :=
  interestRate + (if product.fees then 1 / 2 else 0)

/-- AIAnalysisService.assessFlexibility: 0.5, +0.2 per matching perk family,
capped at 1. -/
def assessFlexibility (product : LoanProduct) : ℚ :=
  min ((1 : ℚ) / 2 +
    (if product.perks.any (fun perk => strContains perk "No prepayment") then 2 / 10 else 0) +
    (if product.perks.any (fun perk => strContains perk "payment options") then 2 / 10 else 0)) 1

/-- AIAnalysisService.assessCustomerService: `0.6 + Math.random() * 0.35`;
the random draw is the oracle value for this evaluation. -/
def assessCustomerService (_institution : Institution) (draw : ℚ) : ℚ :=
  6 / 10 + draw * (35 / 100)

/-- AIAnalysisService.assessApprovalLikelihood:
`min(1, (range.max - range.min) / 200)`. -/
def assessApprovalLikelihood (_product : LoanProduct) (creditScoreRange : CreditScoreRange) : ℚ :=
  min 1 (((creditScoreRange.max - creditScoreRange.min : ℤ) : ℚ) / 200)

/-- AIAnalysisService.calculateMetrics (`ai-analysis/index.js`, lines 80-112):
per product, look up the latest rate with the DEFAULT query score 720 (the
call site passes no credit score), silently skip the product when none is
found, and otherwise compute the payment metrics and auxiliary scores.  `i`
is the position index feeding the randomness oracle. -/
def calculateMetrics (db : List InterestRate) (rng : ℕ → ℚ) (amount : ℚ) (term : ℕ) :
    List LoanProduct → ℕ → List AnalyzedProduct
  | [], _ => []
  | p :: ps, i =>
    match getLatestRate db p.id 720 with
    | none => calculateMetrics db rng amount term ps (i + 1)
    | some rateInfo =>
      { product := p
        interestRate := rateInfo.rate
        monthlyPayment := monthlyPaymentOf amount rateInfo.rate term
        totalPayment := monthlyPaymentOf amount rateInfo.rate term * (term : ℚ)
        totalInterest := monthlyPaymentOf amount rateInfo.rate term * (term : ℚ) - amount
        apr := calculateAPR rateInfo.rate p
        flexibility := assessFlexibility p
        customerService := assessCustomerService p.institution (rng i)
        approvalLikelihood := assessApprovalLikelihood p rateInfo.creditScoreRange } ::
      calculateMetrics db rng amount term ps (i + 1)

/-- The weight set before renormalization: defaults 0.3/0.2/0.1/0.1/0.2,
each `prioritize` flag overriding to 0.4 (rate, payment) or 0.3 (service,
flexibility, approval). -/
def rawWeights (preferences : Preferences) : Weights :=
  { interestRate := if preferences.prioritizeRate then 4 / 10 else 3 / 10
    monthlyPayment := if preferences.prioritizePayment then 4 / 10 else 2 / 10
    customerService := if preferences.prioritizeService then 3 / 10 else 1 / 10
    flexibility := if preferences.prioritizeFlexibility then 3 / 10 else 1 / 10
    approvalLikelihood := if preferences.prioritizeApproval then 3 / 10 else 2 / 10 }

/-- Sum of the five weights (`Object.values(weights).reduce((sum,w) => sum+w, 0)`). -/
def totalOf (w : Weights) : ℚ :=
  w.interestRate + w.monthlyPayment + w.customerService + w.flexibility + w.approvalLikelihood

/-- The renormalized weight set (`weights[key] /= totalWeight`). -/
def weightsOf (preferences : Preferences) : Weights :=
  { interestRate := (rawWeights preferences).interestRate / totalOf (rawWeights preferences)
    monthlyPayment := (rawWeights preferences).monthlyPayment / totalOf (rawWeights preferences)
    customerService := (rawWeights preferences).customerService / totalOf (rawWeights preferences)
    flexibility := (rawWeights preferences).flexibility / totalOf (rawWeights preferences)
    approvalLikelihood :=
      (rawWeights preferences).approvalLikelihood / totalOf (rawWeights preferences) }

/-- Minimum of a list of rationals.  The source seeds the fold with
`Infinity`; on a nonempty list that equals this fold, and the empty case is
never consumed (mapping over an empty candidate list yields no scores). -/
def minOf : List ℚ → ℚ
  | [] => 0
  | x :: xs => xs.foldl min x

/-- Maximum of a list of rationals (source seed: `-Infinity`). -/
def maxOf : List ℚ → ℚ
  | [] => 0
  | x :: xs => xs.foldl max x

/-- AIAnalysisService.normalize: min-max normalization with the degenerate
`min === max` case pinned to 0.5. -/
def normalize (value mn mx : ℚ) : ℚ :=
  if mn = mx then 1 / 2 else (value - mn) / (mx - mn)

/-- The scores object of one candidate inside `rankProducts`: cost metrics
are min-max normalized over the candidate set and inverted; benefit metrics
are taken as-is. -/
def scoresFor (analyzedProducts : List AnalyzedProduct) (a : AnalyzedProduct) : Scores :=
  { interestRate := 1 - normalize a.interestRate
      (minOf (analyzedProducts.map AnalyzedProduct.interestRate))
      (maxOf (analyzedProducts.map AnalyzedProduct.interestRate))
    monthlyPayment := 1 - normalize a.monthlyPayment
      (minOf (analyzedProducts.map AnalyzedProduct.monthlyPayment))
      (maxOf (analyzedProducts.map AnalyzedProduct.monthlyPayment))
    customerService := a.customerService
    flexibility := a.flexibility
    approvalLikelihood := a.approvalLikelihood }

/-- Weighted total score (`Object.keys(scores).reduce(...)`). -/
def totalScoreFor (w : Weights) (s : Scores) : ℚ :=
  s.interestRate * w.interestRate + s.monthlyPayment * w.monthlyPayment +
    s.customerService * w.customerService + s.flexibility * w.flexibility +
    s.approvalLikelihood * w.approvalLikelihood

/-- One candidate's `{...product, scores, totalScore}` record. -/
def scoreProduct (preferences : Preferences) (analyzedProducts : List AnalyzedProduct)
    (a : AnalyzedProduct) : ScoredProduct :=
  { toAnalyzedProduct := a
    scores := scoresFor analyzedProducts a
    totalScore := totalScoreFor (weightsOf preferences) (scoresFor analyzedProducts a) }

/-- AIAnalysisService.rankProducts (`ai-analysis/index.js`, lines 117-175):
score every candidate against the whole candidate set, then sort by total
score descending (`sort((a,b) => b.totalScore - a.totalScore)`). -/
def rankProducts (analyzedProducts : List AnalyzedProduct) (preferences : Preferences) :
    List ScoredProduct :=
  stableSortBy (fun x y => decide (y.totalScore ≤ x.totalScore))
    (analyzedProducts.map (scoreProduct preferences analyzedProducts))

/-- The `recommendations` object of a successful analysis.  The three
product slots are `null` (`none`) exactly when the ranked list is empty. -/
structure Recommendations where
  bestOverall : Option ScoredProduct
  lowestRate : Option ScoredProduct
  lowestPayment : Option ScoredProduct
  text : String
deriving DecidableEq

/-- AIAnalysisService.generateRecommendations (`ai-analysis/index.js`, lines
180-218): best overall is the head of the weighted ranking; lowest rate and
lowest payment come from fresh stable ascending sorts of copies of the
ranked list; the narrative adds the alternative sentences only when the
three picks differ. -/
def generateRecommendations (rankedProducts : List ScoredProduct) (loanType : String)
    (amount : ℚ) (term : ℕ) : Recommendations :=
  match rankedProducts with
  | [] =>
    { bestOverall := none, lowestRate := none, lowestPayment := none
      text := "Based on your criteria, we couldn't find suitable loan options. Consider adjusting your loan amount, term, or improving your credit score." }
  | b :: _ =>
    let bestOverall := b
    let lowestRate := headOr
      (stableSortBy (fun x y => decide (x.interestRate ≤ y.interestRate)) rankedProducts) b
    let lowestPayment := headOr
      (stableSortBy (fun x y => decide (x.monthlyPayment ≤ y.monthlyPayment)) rankedProducts) b
    let text1 :=
      "Based on your " ++ loanType ++ " loan request for $" ++ toString amount ++ " over " ++
      toString term ++ " months, we recommend " ++ bestOverall.product.institution.name ++
      "'s " ++ bestOverall.product.name ++ ". " ++
      "This option offers a competitive rate of " ++ toFixed2 bestOverall.interestRate ++
      "% with a monthly payment of $" ++ toFixed2 bestOverall.monthlyPayment ++ ". "
    let text2 :=
      if bestOverall ≠ lowestRate then
        text1 ++ "For the absolute lowest interest rate of " ++
        toFixed2 lowestRate.interestRate ++ "%, consider " ++
        lowestRate.product.institution.name ++ "'s " ++ lowestRate.product.name ++
        ", though it may have other trade-offs. "
      else text1
    let text3 :=
      if bestOverall ≠ lowestPayment ∧ lowestRate ≠ lowestPayment then
        text2 ++ "If minimizing your monthly payment is most important, " ++
        lowestPayment.product.institution.name ++ "'s " ++ lowestPayment.product.name ++
        " offers the lowest payment at $" ++ toFixed2 lowestPayment.monthlyPayment ++
        ", but you'll pay more in interest over time. "
      else text2
    { bestOverall := some bestOverall, lowestRate := some lowestRate
      lowestPayment := some lowestPayment, text := text3 }

/-- One `insights` entry. -/
structure Insight where
  type : String
  title : String
  text : String
deriving DecidableEq

/-- AIAnalysisService.getRateTrendText: fixed per-type reference averages and
trends, with a band of half a point around the reference average. -/
def getRateTrendText (loanType : String) (currentRate : ℚ) : String :=
  let trend : ℚ × String :=
    match loanType with
    | "Mortgage" => (11 / 2, "rising")
    | "Personal" => (8, "stable")
    | "Auto" => (4, "rising")
    | "Student" => (11 / 2, "falling")
    | "Business" => (7, "rising")
    | _ => (6, "stable")
  if currentRate < trend.1 - 1 / 2 then
    "below the average rate and is currently " ++ trend.2 ++ "."
  else if currentRate > trend.1 + 1 / 2 then
    "above the average rate and is currently " ++ trend.2 ++ "."
  else
    "around the average rate and is currently " ++ trend.2 ++ "."

/-- AIAnalysisService.getCreditScoreImpactText: four advisory bands.  The JS
function also receives the product list but never reads it. -/
def getCreditScoreImpactText (creditScore : ℤ) (_products : List ScoredProduct) : String :=
  if creditScore ≥ 750 then
    "Your excellent credit score qualifies you for the most competitive rates. You're in a strong position to negotiate terms."
  else if creditScore ≥ 700 then
    "Your good credit score qualifies you for competitive rates, though you might not get the absolute lowest rates available."
  else if creditScore ≥ 650 then
    "Your fair credit score limits some options. Improving your score by 50+ points could save you significantly on interest."
  else
    "Your credit score is limiting your options and increasing costs. Consider credit improvement strategies or secured loan options."

/-- AIAnalysisService.getTermImpactText: three bands over the term length,
citing the top product's total interest. -/
def getTermImpactText (term : ℕ) (topProduct : ScoredProduct) : String :=
  let termYears : ℚ := (term : ℚ) / 12
  if term ≤ 36 then
    "Your " ++ toString termYears ++ "-year term means higher monthly payments but less total interest. You'll pay approximately $" ++
    toFixed2 topProduct.totalInterest ++ " in interest over the loan life."
  else if term ≤ 60 then
    "Your " ++ toString termYears ++ "-year term balances monthly payments with total interest cost. You'll pay approximately $" ++
    toFixed2 topProduct.totalInterest ++ " in interest over the loan life."
  else
    "Your " ++ toString termYears ++ "-year term gives you lower monthly payments but increases total interest. You'll pay approximately $" ++
    toFixed2 topProduct.totalInterest ++ " in interest over the loan life."

/-- AIAnalysisService.findSpecialOffers: the distinct perk strings across
all candidates in first-seen order, up to three of them. -/
def findSpecialOffers (products : List ScoredProduct) : Option String :=
  let uniquePerks := dedupKeepFirst (products.map (fun p => p.product.perks)).flatten
  if uniquePerks.isEmpty then none
  else some ("Some institutions offer special benefits including: " ++
    String.intercalate ", " (uniquePerks.take 3) ++
    ". Consider these perks when making your decision.")

/-- AIAnalysisService.generateInsights (`ai-analysis/index.js`, lines
223-265): empty on an empty ranking; otherwise the rate-trend,
credit-impact and term-impact insights, plus a special-offers insight when
any perk exists. -/
def generateInsights (rankedProducts : List ScoredProduct) (loanType : String)
    (creditScore : ℤ) (term : ℕ) : List Insight :=
  match rankedProducts with
  | [] => []
  | top :: _ =>
    let avgRate :=
      rankedProducts.foldl (fun sum p => sum + p.interestRate) 0 / (rankedProducts.length : ℚ)
    let base : List Insight :=
      [{ type := "rate_trend", title := "Interest Rate Trend"
         text := "The average " ++ loanType ++ " loan rate is currently " ++
           toFixed2 avgRate ++ "%. This is " ++ getRateTrendText loanType avgRate },
       { type := "credit_impact", title := "Credit Score Impact"
         text := getCreditScoreImpactText creditScore rankedProducts },
       { type := "term_impact", title := "Loan Term Consideration"
         text := getTermImpactText term top }]
    match findSpecialOffers rankedProducts with
    | none => base
    | some offers =>
      base ++ [{ type := "special_offers", title := "Special Offers", text := offers }]

/-- Static educational content record. -/
structure EducationalContent where
  title : String
  description : String
  keyPoints : List String
  videoLinks : List (String × String)
  commonTerms : List (String × String)
deriving DecidableEq

/-- AIAnalysisService.getEducationalContent: a static table keyed by loan
type (entries for Mortgage and Personal, a generic fallback otherwise).
Video links are (title, url) pairs; common terms are (term, definition)
pairs. -/
def getEducationalContent (loanType : String) : EducationalContent :=
  match loanType with
  | "Mortgage" =>
    { title := "Understanding Mortgage Loans"
      description := "A mortgage is a loan used to purchase real estate, typically a home. The property serves as collateral for the loan, which means it can be seized by the lender if you fail to make payments."
      keyPoints :=
        ["Fixed-rate mortgages keep the same interest rate for the entire term",
         "Adjustable-rate mortgages (ARMs) have rates that can change over time",
         "Conventional loans require a higher credit score but often have better rates",
         "FHA loans are insured by the Federal Housing Administration and are easier to qualify for",
         "VA loans are available to eligible veterans and active military members"]
      videoLinks :=
        [("Mortgage Basics Explained", "https://example.com/videos/mortgage-basics"),
         ("How to Choose the Right Mortgage", "https://example.com/videos/choose-mortgage")]
      commonTerms :=
        [("Principal", "The original loan amount"),
         ("Down Payment", "The initial up-front payment for the property, typically 3-20% of the purchase price"),
         ("Escrow", "An account where funds are held for taxes and insurance"),
         ("Private Mortgage Insurance (PMI)", "Insurance required for conventional loans with less than 20% down payment")] }
  | "Personal" =>
    { title := "Understanding Personal Loans"
      description := "Personal loans are unsecured loans that can be used for almost any purpose, from debt consolidation to funding major purchases or expenses."
      keyPoints :=
        ["Unsecured loans don't require collateral but typically have higher interest rates",
         "Fixed terms and predictable monthly payments make budgeting easier",
         "No restrictions on how funds can be used in most cases",
         "Can be a good option for consolidating high-interest debt"]
      videoLinks :=
        [("Personal Loan Basics", "https://example.com/videos/personal-loan-basics"),
         ("When to Use a Personal Loan", "https://example.com/videos/when-to-use-personal-loan")]
      commonTerms :=
        [("Origination Fee", "A fee charged for processing the loan, typically 1-8% of the loan amount"),
         ("Prepayment Penalty", "A fee charged if you pay off the loan early"),
         ("Unsecured Loan", "A loan that doesn't require collateral"),
         ("Debt-to-Income Ratio", "Your monthly debt payments divided by your gross monthly income")] }
  | _ =>
    { title := "Understanding " ++ loanType ++ " Loans"
      description := "Learn about " ++ loanType ++ " loans and how they work."
      keyPoints :=
        ["Research interest rates", "Compare loan terms", "Understand loan requirements"]
      videoLinks := []
      commonTerms := [] }

/-- One entry of the alternatives list: either a relaxed-constraint product
group (`{type, title, products}`) or the different-loan-type suggestion
(`{type, title, description}`). -/
inductive Alternative where
  | productOptions (type : String) (title : String) (products : List LoanProduct)
  | loanTypeSuggestion (type : String) (title : String) (description : String)
deriving DecidableEq

/-- AIAnalysisService.suggestAlternatives (`ai-analysis/index.js`, lines
436-489): up to two products with `minCreditScore < creditScore - 30`, up to
two products admitting a term at least 12 months shorter or longer, and a
home-equity suggestion for Personal requests of $25,000 or more. -/
def suggestAlternatives (catalog : List LoanProduct) (loanType : String) (amount : ℚ)
    (term : ℕ) (creditScore : ℤ) : List Alternative :=
  let lowerCreditOptions := (catalog.filter (fun p =>
    p.type == loanType &&
    decide (p.minAmount ≤ amount) &&
    maxAmountClause amount p &&
    decide (p.minTerm ≤ term) &&
    maxTermClause term p &&
    (match p.minCreditScore with
     | some m => decide (m < creditScore - 30)
     | none => false) &&
    p.active)).take 2
  let differentTermOptions := (catalog.filter (fun p =>
    p.type == loanType &&
    decide (p.minAmount ≤ amount) &&
    maxAmountClause amount p &&
    minCreditClause creditScore p &&
    p.active &&
    (decide ((p.minTerm : ℤ) ≤ (term : ℤ) - 12) ||
     (match p.maxTerm with
      | some m => decide ((term : ℤ) + 12 ≤ (m : ℤ))
      | none => false)))).take 2
  (if lowerCreditOptions.length > 0 then
    [Alternative.productOptions "lower_credit_options" "Options for Lower Credit Scores"
      lowerCreditOptions]
   else []) ++
  (if differentTermOptions.length > 0 then
    [Alternative.productOptions "different_term_options" "Options with Different Loan Terms"
      differentTermOptions]
   else []) ++
  (if loanType == "Personal" && decide ((25000 : ℚ) ≤ amount) then
    [Alternative.loanTypeSuggestion "different_loan_type" "Consider a Home Equity Loan"
      "For larger amounts, a home equity loan might offer lower interest rates if you own a home with sufficient equity."]
   else [])

/-- The message of the empty-eligibility branch. -/
def noEligibleMessage : String :=
  "No eligible loan products found. Consider improving your credit score or adjusting loan parameters."

/-- Result of `analyzeLoanOptions`: the designated empty-result branch
(`{success:false, message, alternatives}`) or the full success payload
(`{success:true, recommendations, topOptions, allOptions,
educationalContent, insights}`). -/
inductive AnalyzeResult where
  | failure (message : String) (alternatives : List Alternative)
  | success (recommendations : Recommendations) (topOptions : List ScoredProduct)
      (allOptions : List ScoredProduct) (educationalContent : EducationalContent)
      (insights : List Insight)
deriving DecidableEq

/-- AIAnalysisService.analyzeLoanOptions (`ai-analysis/index.js`, lines
16-58).  The JS destructuring defaults `creditScore` to 700 and
`preferences` to `{}` (all flags falsy) when the caller omits them; the
embedding takes both explicitly.  The JS binds each intermediate list once;
the stages are pure, so inlining them is equal. -/
def analyzeLoanOptions (catalog : List LoanProduct) (db : List InterestRate) (rng : ℕ → ℚ)
    (loanType : String) (amount : ℚ) (term : ℕ) (creditScore : ℤ)
    (preferences : Preferences) : AnalyzeResult :=
  if (getEligibleProducts catalog loanType amount term creditScore).length = 0 then
    .failure noEligibleMessage (suggestAlternatives catalog loanType amount term creditScore)
  else
    .success
      (generateRecommendations
        (rankProducts
          (calculateMetrics db rng amount term
            (getEligibleProducts catalog loanType amount term creditScore) 0) preferences)
        loanType amount term)
      ((rankProducts
          (calculateMetrics db rng amount term
            (getEligibleProducts catalog loanType amount term creditScore) 0)
          preferences).take 3)
      (rankProducts
        (calculateMetrics db rng amount term
          (getEligibleProducts catalog loanType amount term creditScore) 0) preferences)
      (getEducationalContent loanType)
      (generateInsights
        (rankProducts
          (calculateMetrics db rng amount term
            (getEligibleProducts catalog loanType amount term creditScore) 0) preferences)
        loanType creditScore term)

lemma foldl_min_le_all (l : List ℚ) : ∀ a : ℚ, l.foldl min a ≤ a ∧ ∀ x ∈ l, l.foldl min a ≤ x := by
  induction l with
  | nil => intro a; simp
  | cons y ys ih =>
    intro a
    simp only [List.foldl_cons]
    refine ⟨((ih (min a y)).1).trans (min_le_left a y), ?_⟩
    intro x hx
    rcases List.mem_cons.1 hx with rfl | hx
    · exact ((ih (min a x)).1).trans (min_le_right a x)
    · exact (ih (min a y)).2 x hx

lemma foldl_max_le_all (l : List ℚ) : ∀ a : ℚ, a ≤ l.foldl max a ∧ ∀ x ∈ l, x ≤ l.foldl max a := by
  induction l with
  | nil => intro a; simp
  | cons y ys ih =>
    intro a
    simp only [List.foldl_cons]
    refine ⟨(le_max_left a y).trans (ih (max a y)).1, ?_⟩
    intro x hx
    rcases List.mem_cons.1 hx with rfl | hx
    · exact (le_max_right a x).trans (ih (max a x)).1
    · exact (ih (max a y)).2 x hx

lemma minOf_le {l : List ℚ} {x : ℚ} (hx : x ∈ l) : minOf l ≤ x := by
  cases l with
  | nil => cases hx
  | cons y ys =>
    rcases List.mem_cons.1 hx with rfl | hx
    · exact (foldl_min_le_all ys x).1
    · exact (foldl_min_le_all ys y).2 x hx

lemma le_maxOf {l : List ℚ} {x : ℚ} (hx : x ∈ l) : x ≤ maxOf l := by
  cases l with
  | nil => cases hx
  | cons y ys =>
    rcases List.mem_cons.1 hx with rfl | hx
    · exact (foldl_max_le_all ys x).1
    · exact (foldl_max_le_all ys y).2 x hx

lemma foldl_min_self (c : ℚ) : ∀ l : List ℚ, (∀ x ∈ l, x = c) → l.foldl min c = c := by
  intro l
  induction l with
  | nil => intro _; rfl
  | cons y ys ih =>
    intro h
    have hy : y = c := h y (List.mem_cons_self y ys)
    simp only [List.foldl_cons, hy, min_self]
    exact ih (fun x hx => h x (List.mem_cons_of_mem y hx))

lemma foldl_max_self (c : ℚ) : ∀ l : List ℚ, (∀ x ∈ l, x = c) → l.foldl max c = c := by
  intro l
  induction l with
  | nil => intro _; rfl
  | cons y ys ih =>
    intro h
    have hy : y = c := h y (List.mem_cons_self y ys)
    simp only [List.foldl_cons, hy, max_self]
    exact ih (fun x hx => h x (List.mem_cons_of_mem y hx))

lemma minOf_const {l : List ℚ} {c : ℚ} (h : ∀ x ∈ l, x = c) (hne : l ≠ []) : minOf l = c := by
  cases l with
  | nil => exact absurd rfl hne
  | cons y ys =>
    have hy : y = c := h y (List.mem_cons_self y ys)
    show ys.foldl min y = c
    rw [hy]
    exact foldl_min_self c ys (fun x hx => h x (List.mem_cons_of_mem y hx))

lemma maxOf_const {l : List ℚ} {c : ℚ} (h : ∀ x ∈ l, x = c) (hne : l ≠ []) : maxOf l = c := by
  cases l with
  | nil => exact absurd rfl hne
  | cons y ys =>
    have hy : y = c := h y (List.mem_cons_self y ys)
    show ys.foldl max y = c
    rw [hy]
    exact foldl_max_self c ys (fun x hx => h x (List.mem_cons_of_mem y hx))

lemma laterOf_left_date (b x : InterestRate) : b.date ≤ (laterOf b x).date := by
  unfold laterOf
  split
  · next h => exact le_of_lt h
  · exact le_refl _

lemma laterOf_right_date (b x : InterestRate) : x.date ≤ (laterOf b x).date := by
  unfold laterOf
  split
  · exact le_refl _
  · next h => exact not_lt.1 h

lemma foldl_laterOf_mem (l : List InterestRate) :
    ∀ b, l.foldl laterOf b = b ∨ l.foldl laterOf b ∈ l := by
  induction l with
  | nil => intro b; exact Or.inl rfl
  | cons y ys ih =>
    intro b
    simp only [List.foldl_cons]
    rcases ih (laterOf b y) with h | h
    · rw [h]
      unfold laterOf
      split
      · exact Or.inr (List.mem_cons_self y ys)
      · exact Or.inl rfl
    · exact Or.inr (List.mem_cons_of_mem y h)

lemma foldl_laterOf_date (l : List InterestRate) :
    ∀ b, b.date ≤ (l.foldl laterOf b).date ∧ ∀ x ∈ l, x.date ≤ (l.foldl laterOf b).date := by
  induction l with
  | nil => intro b; exact ⟨le_refl _, by simp⟩
  | cons y ys ih =>
    intro b
    simp only [List.foldl_cons]
    refine ⟨(laterOf_left_date b y).trans (ih (laterOf b y)).1, ?_⟩
    intro x hx
    rcases List.mem_cons.1 hx with rfl | hx
    · exact (laterOf_right_date b x).trans (ih (laterOf b x)).1
    · exact (ih (laterOf b y)).2 x hx

lemma latestObs_mem {l : List InterestRate} {r : InterestRate} (h : latestObs l = some r) :
    r ∈ l := by
  cases l with
  | nil => cases h
  | cons y ys =>
    simp only [latestObs, Option.some.injEq] at h
    subst h
    rcases foldl_laterOf_mem ys y with h | h
    · rw [h]; exact List.mem_cons_self y ys
    · exact List.mem_cons_of_mem y h

lemma latestObs_date {l : List InterestRate} {r : InterestRate} (h : latestObs l = some r) :
    ∀ x ∈ l, x.date ≤ r.date := by
  cases l with
  | nil => cases h
  | cons y ys =>
    simp only [latestObs, Option.some.injEq] at h
    subst h
    intro x hx
    rcases List.mem_cons.1 hx with rfl | hx
    · exact (foldl_laterOf_date ys x).1
    · exact (foldl_laterOf_date ys y).2 x hx

lemma getLatestRate_some {db : List InterestRate} {pid : ℕ} {cs : ℤ} {r : InterestRate}
    (h : getLatestRate db pid cs = some r) :
    r ∈ db ∧ r.loanProduct = pid ∧ r.creditScoreRange.min ≤ cs ∧ cs ≤ r.creditScoreRange.max ∧
      ∀ o ∈ db, o.loanProduct = pid → o.creditScoreRange.min ≤ cs →
        cs ≤ o.creditScoreRange.max → o.date ≤ r.date := by
  unfold getLatestRate at h
  have hmem := latestObs_mem h
  have hdate := latestObs_date h
  rw [List.mem_filter] at hmem
  obtain ⟨hdb, hcond⟩ := hmem
  simp only [Bool.and_eq_true, beq_iff_eq, decide_eq_true_eq] at hcond
  refine ⟨hdb, hcond.1.1, hcond.1.2, hcond.2, ?_⟩
  intro o ho h1 h2 h3
  exact hdate o (List.mem_filter.2 ⟨ho, by simp [h1, h2, h3]⟩)

lemma calculateMetrics_map_product (db : List InterestRate) (rng : ℕ → ℚ) (amount : ℚ)
    (term : ℕ) : ∀ (ps : List LoanProduct) (i : ℕ),
    (calculateMetrics db rng amount term ps i).map AnalyzedProduct.product =
      ps.filter (fun p => (getLatestRate db p.id 720).isSome) := by
  intro ps
  induction ps with
  | nil => intro i; rfl
  | cons p ps ih =>
    intro i
    cases h : getLatestRate db p.id 720 with
    | none => simp [calculateMetrics, h, ih (i + 1), List.filter_cons]
    | some r => simp [calculateMetrics, h, ih (i + 1), List.filter_cons]

lemma calculateMetrics_mem {db : List InterestRate} {rng : ℕ → ℚ} {amount : ℚ} {term : ℕ} :
    ∀ {ps : List LoanProduct} {i : ℕ} {a : AnalyzedProduct},
    a ∈ calculateMetrics db rng amount term ps i →
    ∃ r, getLatestRate db a.product.id 720 = some r ∧ a.interestRate = r.rate ∧
      a.apr = calculateAPR r.rate a.product := by
  intro ps
  induction ps with
  | nil =>
    intro i a ha
    simp only [calculateMetrics] at ha
    cases ha
  | cons p ps ih =>
    intro i a ha
    cases h : getLatestRate db p.id 720 with
    | none =>
      simp only [calculateMetrics, h] at ha
      exact ih ha
    | some r =>
      simp only [calculateMetrics, h, List.mem_cons] at ha
      rcases ha with rfl | ha
      · exact ⟨r, h, rfl, rfl⟩
      · exact ih ha

lemma rawWeights_pos (preferences : Preferences) :
    0 < (rawWeights preferences).interestRate ∧ 0 < (rawWeights preferences).monthlyPayment ∧
    0 < (rawWeights preferences).customerService ∧ 0 < (rawWeights preferences).flexibility ∧
    0 < (rawWeights preferences).approvalLikelihood := by
  unfold rawWeights
  refine ⟨?_, ?_, ?_, ?_, ?_⟩ <;> dsimp only <;> split <;> norm_num

lemma totalOf_rawWeights_pos (preferences : Preferences) :
    0 < totalOf (rawWeights preferences) := by
  obtain ⟨h1, h2, h3, h4, h5⟩ := rawWeights_pos preferences
  unfold totalOf
  linarith

lemma weightsOf_nonneg (preferences : Preferences) :
    0 ≤ (weightsOf preferences).interestRate ∧ 0 ≤ (weightsOf preferences).monthlyPayment ∧
    0 ≤ (weightsOf preferences).customerService ∧ 0 ≤ (weightsOf preferences).flexibility ∧
    0 ≤ (weightsOf preferences).approvalLikelihood := by
  obtain ⟨h1, h2, h3, h4, h5⟩ := rawWeights_pos preferences
  have ht := totalOf_rawWeights_pos preferences
  unfold weightsOf
  exact ⟨div_nonneg h1.le ht.le, div_nonneg h2.le ht.le, div_nonneg h3.le ht.le,
    div_nonneg h4.le ht.le, div_nonneg h5.le ht.le⟩

lemma normalize_mono {mn mx v₁ v₂ : ℚ} (hmn : mn ≤ mx) (h : v₁ ≤ v₂) :
    normalize v₁ mn mx ≤ normalize v₂ mn mx := by
  by_cases hc : mn = mx
  · simp [normalize, hc]
  · simp only [normalize, if_neg hc]
    exact div_le_div_of_nonneg_right (sub_le_sub_right h mn) (sub_nonneg.2 hmn)

lemma geom_sum_bound (r : ℚ) (hr : 0 ≤ r) :
    ∀ N : ℕ, (1 + r) ^ N - 1 ≤ (N : ℚ) * r * (1 + r) ^ N := by
  intro N
  induction N with
  | zero => simp
  | succ n ih =>
    have h1p : (0 : ℚ) ≤ 1 + r := by linarith
    have hpow : (0 : ℚ) ≤ (1 + r) ^ n := pow_nonneg h1p n
    have h2 : (1 + r) ^ n ≤ (1 + r) ^ (n + 1) := pow_le_pow_right₀ (by linarith) (Nat.le_succ n)
    have step1 : (1 + r) ^ (n + 1) - 1 = ((1 + r) ^ n - 1) + r * (1 + r) ^ n := by ring
    have step3 : (n : ℚ) * r * (1 + r) ^ n + r * (1 + r) ^ n =
        ((n : ℚ) + 1) * r * (1 + r) ^ n := by ring
    have hnn : (0 : ℚ) ≤ ((n : ℚ) + 1) * r := by positivity
    have step4 : ((n : ℚ) + 1) * r * (1 + r) ^ n ≤ ((n : ℚ) + 1) * r * (1 + r) ^ (n + 1) :=
      mul_le_mul_of_nonneg_left h2 hnn
    push_cast
    linarith

/-- C5: for every combination of the five prioritize flags, the derived
weights (defaults 0.3/0.2/0.1/0.1/0.2, overridden to 0.4 or 0.3 by a set
flag) sum to exactly 1 after the renormalization step of `rankProducts`. -/
theorem c5_weights_sum_to_one (preferences : Preferences) :
    totalOf (weightsOf preferences) = 1 := by
  have ht := totalOf_rawWeights_pos preferences
  simp only [totalOf, weightsOf] at ht ⊢
  rw [div_add_div_same, div_add_div_same, div_add_div_same, div_add_div_same]
  exact div_self (ne_of_gt ht)

/-- C6: for positive principal, positive annual rate and positive term, the
monthly payment computed by the amortization formula of `calculateMetrics`
times the number of months is at least the principal. -/
theorem c6_total_payment_at_least_principal (P R : ℚ) (N : ℕ)
    (hP : 0 < P) (hR : 0 < R) (hN : 0 < N) :
    P ≤ monthlyPaymentOf P R N * (N : ℚ) := by
  unfold monthlyPaymentOf
  set r := R / 100 / 12 with hrdef
  have hr : 0 < r := by rw [hrdef]; positivity
  have h1 : (1 : ℚ) < 1 + r := by linarith
  have hD : 0 < (1 + r) ^ N - 1 := sub_pos.2 (one_lt_pow₀ h1 hN.ne')
  rw [div_mul_eq_mul_div, le_div_iff₀ hD]
  have hgeom := geom_sum_bound r hr.le N
  have hmul := mul_le_mul_of_nonneg_left hgeom hP.le
  nlinarith [hmul]

/-- C6 witness: the bound applied at P = 1200, R = 12 (annual percent),
N = 12 months. -/
theorem c6_witness :
    (0 : ℚ) < 1200 ∧ (0 : ℚ) < 12 ∧ (0 : ℕ) < 12 ∧
      (1200 : ℚ) ≤ monthlyPaymentOf 1200 12 12 * ((12 : ℕ) : ℚ) :=
  ⟨by norm_num, by norm_num, by norm_num,
    c6_total_payment_at_least_principal 1200 12 12 (by norm_num) (by norm_num) (by norm_num)⟩

/-- C4 (code-bug evidence): at annual rate R = 0 the code evaluates the
closed-form formula whose denominator `(1+monthlyRate)^N - 1` is zero
instead of special-casing to P / N.  At P = 1200, N = 12 the embedding's
total division collapses the expression to 0 (the JS evaluation produces
NaN); either way the result is not the required P / N = 100. -/
theorem c4_zero_rate_division :
    monthlyPaymentOf 1200 0 12 = 0 ∧ (1200 : ℚ) / 12 = 100 ∧
      monthlyPaymentOf 1200 0 12 ≠ (1200 : ℚ) / 12 := by
  refine ⟨by norm_num [monthlyPaymentOf], by norm_num, by norm_num [monthlyPaymentOf]⟩

/-- C9: the approval-likelihood score is literally
`min(1, (range.max - range.min)/200)`, lies in [0,1] for every well-formed
credit-score range, and widening the qualifying band never lowers it. -/
theorem c9_approval_likelihood (p₁ p₂ : LoanProduct) (r₁ r₂ : CreditScoreRange)
    (h₁ : r₁.min ≤ r₁.max) (h₂ : r₂.min ≤ r₂.max) :
    assessApprovalLikelihood p₁ r₁ = min 1 (((r₁.max - r₁.min : ℤ) : ℚ) / 200) ∧
    0 ≤ assessApprovalLikelihood p₁ r₁ ∧ assessApprovalLikelihood p₁ r₁ ≤ 1 ∧
    (r₁.max - r₁.min ≤ r₂.max - r₂.min →
      assessApprovalLikelihood p₁ r₁ ≤ assessApprovalLikelihood p₂ r₂) := by
  refine ⟨rfl, ?_, ?_, ?_⟩
  · unfold assessApprovalLikelihood
    refine le_min (by norm_num) (div_nonneg ?_ (by norm_num))
    exact_mod_cast sub_nonneg.2 h₁
  · unfold assessApprovalLikelihood
    exact min_le_left _ _
  · intro h
    unfold assessApprovalLikelihood
    refine min_le_min (le_refl 1) (div_le_div_of_nonneg_right ?_ (by norm_num))
    exact_mod_cast h

/-- Fixture: a concrete auto-loan product used by the witnesses. -/
def witnessProduct : LoanProduct :=
  ⟨3, ⟨"Community Credit Union"⟩, "Auto Select", "Auto", 0, some 50000, 12, some 84,
    some 650, ["No prepayment penalty"], true⟩

/-- Fixture: a narrow credit-score band. -/
def narrowRange : CreditScoreRange := ⟨600, 750⟩

/-- Fixture: a wide credit-score band. -/
def wideRange : CreditScoreRange := ⟨500, 850⟩

/-- C9 witness: the theorem applied at the two concrete bands. -/
theorem c9_witness :
    assessApprovalLikelihood witnessProduct narrowRange =
      min 1 (((narrowRange.max - narrowRange.min : ℤ) : ℚ) / 200) ∧
    0 ≤ assessApprovalLikelihood witnessProduct narrowRange ∧
    assessApprovalLikelihood witnessProduct narrowRange ≤ 1 ∧
    (narrowRange.max - narrowRange.min ≤ wideRange.max - wideRange.min →
      assessApprovalLikelihood witnessProduct narrowRange ≤
        assessApprovalLikelihood witnessProduct wideRange) :=
  c9_approval_likelihood witnessProduct witnessProduct narrowRange wideRange
    (by decide) (by decide)

/-- C10: every product analyzed by `calculateMetrics` carries an APR equal
to its matched interest rate: the LoanProduct schema declares no `fees`
path, so the fee branch of `calculateAPR` never fires. -/
theorem c10_apr_equals_rate (db : List InterestRate) (rng : ℕ → ℚ) (amount : ℚ) (term : ℕ)
    (products : List LoanProduct) (i : ℕ) (a : AnalyzedProduct)
    (ha : a ∈ calculateMetrics db rng amount term products i) :
    a.apr = a.interestRate ∧ calculateAPR a.interestRate a.product = a.interestRate := by
  obtain ⟨r, _, hrate, hapr⟩ := calculateMetrics_mem ha
  have hfees : calculateAPR r.rate a.product = r.rate := by
    simp [calculateAPR, LoanProduct.fees]
  constructor
  · rw [hapr, hfees, hrate]
  · rw [hrate]
    exact hfees

/-- Fixture: a rate observation for `witnessProduct`. -/
def witnessObs : InterestRate := ⟨3, 5, 4, 72, ⟨600, 750⟩⟩

/-- Fixture: the rate store holding only `witnessObs`. -/
def witnessDb : List InterestRate := [witnessObs]

/-- Fixture: a fixed randomness oracle. -/
def witnessRng : ℕ → ℚ := fun _ => 1 / 2

/-- Fixture: the analyzed record `calculateMetrics` produces for
`witnessProduct` at amount 10000 and term 2. -/
def witnessAnalyzed : AnalyzedProduct :=
  { product := witnessProduct
    interestRate := witnessObs.rate
    monthlyPayment := monthlyPaymentOf 10000 witnessObs.rate 2
    totalPayment := monthlyPaymentOf 10000 witnessObs.rate 2 * ((2 : ℕ) : ℚ)
    totalInterest := monthlyPaymentOf 10000 witnessObs.rate 2 * ((2 : ℕ) : ℚ) - 10000
    apr := calculateAPR witnessObs.rate witnessProduct
    flexibility := assessFlexibility witnessProduct
    customerService := assessCustomerService witnessProduct.institution (witnessRng 0)
    approvalLikelihood := assessApprovalLikelihood witnessProduct witnessObs.creditScoreRange }

/-- C10 witness: the theorem applied to the concrete analyzed record. -/
theorem c10_witness :
    witnessAnalyzed.apr = witnessAnalyzed.interestRate ∧
    calculateAPR witnessAnalyzed.interestRate witnessAnalyzed.product =
      witnessAnalyzed.interestRate :=
  c10_apr_equals_rate witnessDb witnessRng 10000 2 [witnessProduct] 0 witnessAnalyzed
    (by
      have hcm : calculateMetrics witnessDb witnessRng 10000 2 [witnessProduct] 0 =
          [witnessAnalyzed] := rfl
      rw [hcm]
      exact List.mem_cons_self _ _)

/-- C7: if candidate A dominates candidate B on every weighted metric
(strictly lower interest rate and monthly payment, strictly higher customer
service, flexibility and approval likelihood), then A's weighted total
score, as computed by the scoring stage of `rankProducts` over the same
candidate set, is at least B's — so the descending sort ranks A no lower. -/
theorem c7_dominance_respects_score (analyzedProducts : List AnalyzedProduct)
    (preferences : Preferences) (A B : AnalyzedProduct)
    (hA : A ∈ analyzedProducts) (hB : B ∈ analyzedProducts)
    (h1 : A.interestRate < B.interestRate) (h2 : A.monthlyPayment < B.monthlyPayment)
    (h3 : B.customerService < A.customerService) (h4 : B.flexibility < A.flexibility)
    (h5 : B.approvalLikelihood < A.approvalLikelihood) :
    (scoreProduct preferences analyzedProducts B).totalScore ≤
      (scoreProduct preferences analyzedProducts A).totalScore := by
  obtain ⟨w1, w2, w3, w4, w5⟩ := weightsOf_nonneg preferences
  have hrA : A.interestRate ∈ analyzedProducts.map AnalyzedProduct.interestRate :=
    List.mem_map_of_mem AnalyzedProduct.interestRate hA
  have hmr : minOf (analyzedProducts.map AnalyzedProduct.interestRate) ≤
      maxOf (analyzedProducts.map AnalyzedProduct.interestRate) :=
    (minOf_le hrA).trans (le_maxOf hrA)
  have hpA : A.monthlyPayment ∈ analyzedProducts.map AnalyzedProduct.monthlyPayment :=
    List.mem_map_of_mem AnalyzedProduct.monthlyPayment hA
  have hmp : minOf (analyzedProducts.map AnalyzedProduct.monthlyPayment) ≤
      maxOf (analyzedProducts.map AnalyzedProduct.monthlyPayment) :=
    (minOf_le hpA).trans (le_maxOf hpA)
  have s1 := sub_le_sub_left (normalize_mono hmr h1.le) 1
  have s2 := sub_le_sub_left (normalize_mono hmp h2.le) 1
  have t1 := mul_le_mul_of_nonneg_right s1 w1
  have t2 := mul_le_mul_of_nonneg_right s2 w2
  have t3 := mul_le_mul_of_nonneg_right h3.le w3
  have t4 := mul_le_mul_of_nonneg_right h4.le w4
  have t5 := mul_le_mul_of_nonneg_right h5.le w5
  simp only [scoreProduct, totalScoreFor, scoresFor]
  linarith

/-- Fixture: the dominating candidate of the C7 witness. -/
def domA : AnalyzedProduct :=
  ⟨⟨1, ⟨"First National Bank"⟩, "Personal Premium", "Personal", 0, some 100000, 1, some 120,
      some 600, [], true⟩,
    3, 100, 1200, 200, 3, 9 / 10, 9 / 10, 9 / 10⟩

/-- Fixture: the dominated candidate of the C7 witness. -/
def domB : AnalyzedProduct :=
  ⟨⟨2, ⟨"Global Financial"⟩, "Personal Basic", "Personal", 0, some 100000, 1, some 120,
      some 620, [], true⟩,
    5, 200, 2400, 400, 5, 1 / 2, 3 / 5, 1 / 2⟩

/-- C7 witness: the dominance bound applied to two concrete candidates
under default preferences. -/
theorem c7_witness :
    (scoreProduct ⟨false, false, false, false, false⟩ [domA, domB] domB).totalScore ≤
      (scoreProduct ⟨false, false, false, false, false⟩ [domA, domB] domA).totalScore :=
  c7_dominance_respects_score [domA, domB] ⟨false, false, false, false, false⟩ domA domB
    (List.mem_cons_self _ _) (List.mem_cons_of_mem _ (List.mem_cons_self _ _))
    (by norm_num [domA, domB]) (by norm_num [domA, domB]) (by norm_num [domA, domB])
    (by norm_num [domA, domB]) (by norm_num [domA, domB])

/-- C8: when every candidate shares the same interest rate (so min = max
over the set), the normalized interest-rate score of every candidate is the
neutral 0.5 and the metric contributes exactly 0.5 times its weight to
every total score; likewise for the monthly-payment metric. -/
theorem c8_degenerate_metric_neutral (analyzedProducts : List AnalyzedProduct)
    (preferences : Preferences) (p : AnalyzedProduct) (c d : ℚ)
    (hp : p ∈ analyzedProducts) :
    ((∀ q ∈ analyzedProducts, q.interestRate = c) →
      (scoresFor analyzedProducts p).interestRate = 1 / 2 ∧
      (scoresFor analyzedProducts p).interestRate * (weightsOf preferences).interestRate =
        1 / 2 * (weightsOf preferences).interestRate) ∧
    ((∀ q ∈ analyzedProducts, q.monthlyPayment = d) →
      (scoresFor analyzedProducts p).monthlyPayment = 1 / 2 ∧
      (scoresFor analyzedProducts p).monthlyPayment * (weightsOf preferences).monthlyPayment =
        1 / 2 * (weightsOf preferences).monthlyPayment) := by
  have hne : analyzedProducts ≠ [] := List.ne_nil_of_mem hp
  constructor
  · intro hall
    have hmapne : analyzedProducts.map AnalyzedProduct.interestRate ≠ [] := by
      simpa using hne
    have hconst : ∀ x ∈ analyzedProducts.map AnalyzedProduct.interestRate, x = c := by
      intro x hx
      rcases List.mem_map.1 hx with ⟨q, hq, rfl⟩
      exact hall q hq
    have hsc : (scoresFor analyzedProducts p).interestRate = 1 / 2 := by
      simp [scoresFor, minOf_const hconst hmapne, maxOf_const hconst hmapne, normalize]
      norm_num
    exact ⟨hsc, by rw [hsc]⟩
  · intro hall
    have hmapne : analyzedProducts.map AnalyzedProduct.monthlyPayment ≠ [] := by
      simpa using hne
    have hconst : ∀ x ∈ analyzedProducts.map AnalyzedProduct.monthlyPayment, x = d := by
      intro x hx
      rcases List.mem_map.1 hx with ⟨q, hq, rfl⟩
      exact hall q hq
    have hsc : (scoresFor analyzedProducts p).monthlyPayment = 1 / 2 := by
      simp [scoresFor, minOf_const hconst hmapne, maxOf_const hconst hmapne, normalize]
      norm_num
    exact ⟨hsc, by rw [hsc]⟩

/-- Fixture: first candidate of a degenerate set (all rates 4, all payments
150). -/
def flatA : AnalyzedProduct :=
  ⟨⟨4, ⟨"First National Bank"⟩, "Flat One", "Personal", 0, some 100000, 1, some 120,
      some 600, [], true⟩,
    4, 150, 1800, 300, 4, 7 / 10, 4 / 5, 3 / 4⟩

/-- Fixture: second candidate of the degenerate set. -/
def flatB : AnalyzedProduct :=
  ⟨⟨5, ⟨"Community Credit Union"⟩, "Flat Two", "Personal", 0, some 100000, 1, some 120,
      some 620, [], true⟩,
    4, 150, 1800, 300, 4, 1 / 2, 7 / 10, 1 / 2⟩

/-- C8 witness: the neutral-score property applied to the concrete
degenerate candidate set. -/
theorem c8_witness :
    ((∀ q ∈ [flatA, flatB], AnalyzedProduct.interestRate q = 4) →
      (scoresFor [flatA, flatB] flatA).interestRate = 1 / 2 ∧
      (scoresFor [flatA, flatB] flatA).interestRate *
          (weightsOf ⟨false, false, false, false, false⟩).interestRate =
        1 / 2 * (weightsOf ⟨false, false, false, false, false⟩).interestRate) ∧
    ((∀ q ∈ [flatA, flatB], AnalyzedProduct.monthlyPayment q = 150) →
      (scoresFor [flatA, flatB] flatA).monthlyPayment = 1 / 2 ∧
      (scoresFor [flatA, flatB] flatA).monthlyPayment *
          (weightsOf ⟨false, false, false, false, false⟩).monthlyPayment =
        1 / 2 * (weightsOf ⟨false, false, false, false, false⟩).monthlyPayment) :=
  c8_degenerate_metric_neutral [flatA, flatB] ⟨false, false, false, false, false⟩ flatA 4 150
    (List.mem_cons_self _ _)

/-- C2: `analyzeLoanOptions` returns the `{success:false, message,
alternatives}` branch exactly when the eligibility filter yields the empty
list, and that branch carries the fixed message together with the result of
the alternatives search; otherwise it returns the full success payload. -/
theorem c2_failure_iff_no_eligible (catalog : List LoanProduct) (db : List InterestRate)
    (rng : ℕ → ℚ) (loanType : String) (amount : ℚ) (term : ℕ) (creditScore : ℤ)
    (preferences : Preferences) :
    ((∃ message alternatives,
        analyzeLoanOptions catalog db rng loanType amount term creditScore preferences =
          AnalyzeResult.failure message alternatives) ↔
      getEligibleProducts catalog loanType amount term creditScore = []) ∧
    (getEligibleProducts catalog loanType amount term creditScore = [] →
      analyzeLoanOptions catalog db rng loanType amount term creditScore preferences =
        AnalyzeResult.failure noEligibleMessage
          (suggestAlternatives catalog loanType amount term creditScore)) := by
  by_cases h : getEligibleProducts catalog loanType amount term creditScore = []
  · constructor
    · simp [analyzeLoanOptions, h]
    · intro _
      simp [analyzeLoanOptions, h]
  · have hlen : (getEligibleProducts catalog loanType amount term creditScore).length ≠ 0 := by
      simpa [List.length_eq_zero] using h
    constructor
    · simp [analyzeLoanOptions, hlen, h]
    · intro hcontra
      exact absurd hcontra h

/-- C3 (amended): the eligibility filter returns, in catalog order, exactly
the products matching the query's Mongo clauses: exact type match,
`minAmount ≤ amount`, a PRESENT `maxAmount` at least the requested amount
(`MAX_SAFE_INTEGER` replacing a zero requested amount), `minTerm ≤ term`, a
present `maxTerm` at least the requested term (same zero fallback), a
present `minCreditScore` at most the score, and `active`. -/
theorem c3_eligibility_characterization (catalog : List LoanProduct) (loanType : String)
    (amount : ℚ) (term : ℕ) (creditScore : ℤ) :
    (getEligibleProducts catalog loanType amount term creditScore).Sublist catalog ∧
    ∀ p, p ∈ getEligibleProducts catalog loanType amount term creditScore ↔
      p ∈ catalog ∧ p.type = loanType ∧ p.minAmount ≤ amount ∧
      (∃ m, p.maxAmount = some m ∧
        (if amount = 0 then ((maxSafeInteger : ℕ) : ℚ) else amount) ≤ m) ∧
      p.minTerm ≤ term ∧
      (∃ m, p.maxTerm = some m ∧ (if term = 0 then maxSafeInteger else term) ≤ m) ∧
      (∃ m, p.minCreditScore = some m ∧ m ≤ creditScore) ∧
      p.active = true := by
  refine ⟨List.filter_sublist _, fun p => ?_⟩
  rw [getEligibleProducts, List.mem_filter]
  rcases hma : p.maxAmount with _ | m₁ <;> rcases hmt : p.maxTerm with _ | m₂ <;>
    rcases hmc : p.minCreditScore with _ | m₃ <;>
      simp [matchesEligibility, maxAmountClause, maxTermClause, minCreditClause, hma, hmt,
        hmc, and_assoc]

/-- Fixture: a product that satisfies every clause of C3 as stated except
that its `maxAmount` is absent. -/
def uncappedProduct : LoanProduct :=
  ⟨9, ⟨"Global Financial"⟩, "Open Personal", "Personal", 0, none, 1, some 120, some 600,
    [], true⟩

/-- C3 counterexample: a product with no `maxAmount` bound is excluded by
the filter even though the claim's reading (absent upper bound = unbounded)
admits it: every other clause holds for the query (type Personal, amount
1000, term 12, score 700). -/
theorem c3_counterexample :
    getEligibleProducts [uncappedProduct] "Personal" 1000 12 700 = [] ∧
    uncappedProduct.type = "Personal" ∧ uncappedProduct.minAmount ≤ 1000 ∧
    uncappedProduct.maxAmount = none ∧ uncappedProduct.minTerm ≤ 12 ∧
    uncappedProduct.maxTerm = some 120 ∧ (12 : ℕ) ≤ 120 ∧
    uncappedProduct.minCreditScore = some 600 ∧ (600 : ℤ) ≤ 700 ∧
    uncappedProduct.active = true := by
  refine ⟨rfl, rfl, by decide, rfl, by decide, rfl, by decide, rfl, by decide, rfl⟩

/-- C1 (amended): `calculateMetrics` keeps, in order, exactly the eligible
products for which `getLatestRate` finds an observation whose credit-score
range contains the FIXED default query score 720 (the caller's credit score
is not forwarded), silently dropping the others; each kept product carries
the rate of a most-recent such observation (by date, ties to the earliest
stored). -/
theorem c1_rate_resolution (db : List InterestRate) (rng : ℕ → ℚ) (amount : ℚ) (term : ℕ)
    (products : List LoanProduct) (i : ℕ) :
    (calculateMetrics db rng amount term products i).map AnalyzedProduct.product =
      products.filter (fun p => (getLatestRate db p.id 720).isSome) ∧
    ∀ a ∈ calculateMetrics db rng amount term products i,
      ∃ r, getLatestRate db a.product.id 720 = some r ∧ a.interestRate = r.rate ∧
        r ∈ db ∧ r.loanProduct = a.product.id ∧ r.creditScoreRange.min ≤ 720 ∧
        (720 : ℤ) ≤ r.creditScoreRange.max ∧
        ∀ o ∈ db, o.loanProduct = a.product.id → o.creditScoreRange.min ≤ 720 →
          (720 : ℤ) ≤ o.creditScoreRange.max → o.date ≤ r.date := by
  refine ⟨calculateMetrics_map_product db rng amount term products i, ?_⟩
  intro a ha
  obtain ⟨r, hr, hrate, _⟩ := calculateMetrics_mem ha
  obtain ⟨hdb, hpid, hmin, hmax, hlatest⟩ := getLatestRate_some hr
  exact ⟨r, hr, hrate, hdb, hpid, hmin, hmax, hlatest⟩

/-- C1 witness: the characterization applied to the concrete one-product
catalog and one-observation store of the C10 fixture. -/
theorem c1_witness :
    (calculateMetrics witnessDb witnessRng 10000 2 [witnessProduct] 0).map
        AnalyzedProduct.product =
      [witnessProduct].filter (fun p => (getLatestRate witnessDb p.id 720).isSome) ∧
    ∀ a ∈ calculateMetrics witnessDb witnessRng 10000 2 [witnessProduct] 0,
      ∃ r, getLatestRate witnessDb a.product.id 720 = some r ∧ a.interestRate = r.rate ∧
        r ∈ witnessDb ∧ r.loanProduct = a.product.id ∧ r.creditScoreRange.min ≤ 720 ∧
        (720 : ℤ) ≤ r.creditScoreRange.max ∧
        ∀ o ∈ witnessDb, o.loanProduct = a.product.id → o.creditScoreRange.min ≤ 720 →
          (720 : ℤ) ≤ o.creditScoreRange.max → o.date ≤ r.date :=
  c1_rate_resolution witnessDb witnessRng 10000 2 [witnessProduct] 0

/-- Fixture: an eligible personal-loan product for the C1 counterexample. -/
def cxProduct : LoanProduct :=
  ⟨7, ⟨"First National Bank"⟩, "Personal Standard", "Personal", 0, some 100000, 1, some 120,
    some 600, [], true⟩

/-- Fixture: the only rate observation for `cxProduct`: its band [600, 750]
contains the default query score 720 but not the caller's score 800. -/
def cxObs : InterestRate := ⟨7, 1, 5, 60, ⟨600, 750⟩⟩

/-- Fixture: the randomness oracle of the C1 counterexample. -/
def cxRng : ℕ → ℚ := fun _ => 0

/-- Interest rates of the analyzed options of a result. -/
def allRatesOf : AnalyzeResult → List ℚ
  | .failure _ _ => []
  | .success _ _ allOptions _ _ => allOptions.map (fun s => s.interestRate)

/-- C1 counterexample: the caller analyzes with credit score 800; no stored
observation's band contains 800, so under the claim the product must be
dropped and the analyzed list left empty — yet the pipeline prices the
product with the 5% observation whose band [600, 750] contains only the
fixed default query score 720. -/
theorem c1_counterexample :
    allRatesOf (analyzeLoanOptions [cxProduct] [cxObs] cxRng "Personal" 1000 2 800
        ⟨false, false, false, false, false⟩) = [cxObs.rate] ∧
    ∀ o ∈ [cxObs], ¬ (o.creditScoreRange.min ≤ 800 ∧ (800 : ℤ) ≤ o.creditScoreRange.max) := by
  exact ⟨rfl, by decide⟩

end LoanCalculator
